import Mathlib

/-!
Shallow embedding of the EPPI attendance server (`src/server.js`, which holds two
iterations of the same Express app: a memory-storage version, called V1 below, and a
Cloudinary-backed version, called V2) together with the browser capture client
(`src/unnamed/part_000`).

Conventions of the embedding:
* Machine time: epoch milliseconds as `Int` (JS `Date.now()` / `new Date().getTime()`).
  Each request handler receives the single server instant `serverNow` at which it runs
  (`const now = new Date()`; the later `Date.now()` in V2 reads the same instant).
* A multipart request is a record of the optional fields the handlers read
  (`req.file`, `req.body.timestamp`, `req.body.employerId`, `req.body.loggerName`);
  a missing field is `none` (JS `undefined`).
* Mongoose documents before validation have optional fields; `save` validates the
  schema's `required` fields and either yields the stored record or rejects
  (the handler's `catch` then answers HTTP 500).
* The V1 server persists no photo: multer uses `memoryStorage`, the static middleware
  serves only the source directory, and the record stores the placeholder
  `photoPath: 'IN_MEMORY'` and `photoUrl: req.file.originalname`.  The server's
  persisted-photo table (`photos` in `ServerState`) therefore passes through V1
  unchanged.
-/

/-- One uploaded multipart file as multer's memory storage exposes it:
`originalname` (client-chosen filename) and the in-memory byte buffer. -/
structure PhotoFile where
  originalname : String
  buffer : List Nat
deriving DecidableEq, Repr

/-- The parts of a `POST /api/attendance/mark` request the handlers read.
`timestamp` is the advisory client-supplied string appended by the capture client;
no server version ever reads it. -/
structure MarkRequest where
  file : Option PhotoFile
  timestamp : Option String
  employerId : Option String
  loggerName : Option String
deriving DecidableEq, Repr

/-- A stored `Attendance` document after successful validation.  `date`, `time` and
`photoPath` are not `required` in the V2 schema, hence optional here; `employerId`,
`loggerName` and `photoUrl` are `required` in both schemas. -/
structure AttendanceRecord where
  employerId : String
  loggerName : String
  timestamp : Int
  date : Option String
  time : Option String
  photoPath : Option String
  photoUrl : String
deriving DecidableEq, Repr

/-- A freshly constructed (unvalidated) `new Attendance({...})` document. -/
structure AttendanceDoc where
  employerId : Option String
  loggerName : Option String
  timestamp : Int
  date : Option String
  time : Option String
  photoPath : Option String
  photoUrl : Option String
deriving DecidableEq, Repr

/-- `save()` under the V1 schema: `employerId`, `loggerName`, `photoPath` and
`photoUrl` are all `required`; a missing one makes the save reject (`none`). -/
def attendanceSaveV1 (doc : AttendanceDoc) : Option AttendanceRecord :=
  match doc.employerId, doc.loggerName, doc.photoPath, doc.photoUrl with
  | some e, some l, some p, some u =>
      some { employerId := e, loggerName := l, timestamp := doc.timestamp,
             date := doc.date, time := doc.time, photoPath := some p, photoUrl := u }
  | _, _, _, _ => none

/-- `save()` under the V2 schema: `employerId`, `loggerName` and `photoUrl` are
`required`; `photoPath` is optional. -/
def attendanceSaveV2 (doc : AttendanceDoc) : Option AttendanceRecord :=
  match doc.employerId, doc.loggerName, doc.photoUrl with
  | some e, some l, some u =>
      some { employerId := e, loggerName := l, timestamp := doc.timestamp,
             date := doc.date, time := doc.time, photoPath := doc.photoPath, photoUrl := u }
  | _, _, _ => none

/-! ### Date/time rendering in the fixed organizational timezone

`now.toLocaleDateString('en-US', {timeZone:'Asia/Dubai', year:'numeric',
month:'2-digit', day:'2-digit'})` renders `MM/DD/YYYY`, and
`now.toLocaleTimeString('en-US', {timeZone:'Asia/Dubai', hour:'2-digit',
minute:'2-digit', second:'2-digit', hour12:true})` renders `hh:mm:ss AM|PM`.
Asia/Dubai is a fixed UTC+4 zone with no daylight saving, so both are pure
functions of the epoch instant. -/

/-- Asia/Dubai is UTC+4, constant year-round. -/
def dubaiOffsetMillis : Int := 4 * 60 * 60 * 1000

/-- Proleptic-Gregorian civil date `(year, month, day)` from days since the epoch
(standard era/day-of-era decomposition). -/
def civilFromDays (z0 : Int) : Int × Nat × Nat :=
  let z := z0 + 719468
  let era := Int.fdiv z 146097
  let doe := (z - era * 146097).toNat
  let yoe := (doe - doe / 1460 + doe / 36524 - doe / 146096) / 365
  let y : Int := (yoe : Int) + era * 400
  let doy := doe - (365 * yoe + yoe / 4 - yoe / 100)
  let mp := (5 * doy + 2) / 153
  let d := doy - (153 * mp + 2) / 5 + 1
  let m := if mp < 10 then mp + 3 else mp - 9
  (if m ≤ 2 then y + 1 else y, m, d)

/-- Civil date and time-of-day of an epoch instant in the Asia/Dubai zone. -/
def dubaiCivil (epochMillis : Int) : (Int × Nat × Nat) × (Nat × Nat × Nat) :=
  let t := epochMillis + dubaiOffsetMillis
  let days := Int.fdiv t 86400000
  let secOfDay := (t - days * 86400000).toNat / 1000
  (civilFromDays days, (secOfDay / 3600, secOfDay % 3600 / 60, secOfDay % 60))

/-- Two-digit zero padding, as the `'2-digit'` locale option produces. -/
def pad2 (n : Nat) : String :=
  if n < 10 then "0" ++ toString n else toString n

/-- `toLocaleDateString('en-US', dateOptions)`: `MM/DD/YYYY` in Asia/Dubai. -/
def formatDubaiDate (epochMillis : Int) : String :=
  let c := dubaiCivil epochMillis
  pad2 c.1.2.1 ++ "/" ++ pad2 c.1.2.2 ++ "/" ++ toString c.1.1

/-- `toLocaleTimeString('en-US', timeOptions)`: `hh:mm:ss AM|PM` in Asia/Dubai. -/
def formatDubaiTime (epochMillis : Int) : String :=
  let c := dubaiCivil epochMillis
  let h := c.2.1
  let h12 := if h % 12 = 0 then 12 else h % 12
  let half := if h < 12 then "AM" else "PM"
  pad2 h12 ++ ":" ++ pad2 c.2.2.1 ++ ":" ++ pad2 c.2.2.2 ++ " " ++ half

/-! ### HTTP responses and server state -/

/-- The `record` object returned inside a successful mark response. -/
structure RecordView where
  photoUrl : String
  date : String
  time : String
deriving DecidableEq, Repr

/-- A JSON response from the mark endpoint: HTTP status, `success` flag,
`message`, and the optional `record` payload. -/
structure JsonResponse where
  status : Nat
  success : Bool
  message : String
  record : Option RecordView
deriving DecidableEq, Repr

/-- Server-side state of the V1 (memory storage) server: the `Attendance`
collection, in insertion order, and the table of photos the server persists and
serves (key ↦ bytes).  V1 persists none (multer memoryStorage; the `/uploads`
static route was removed), so its handlers never touch `photos`. -/
structure ServerState where
  db : List AttendanceRecord
  photos : List (String × List Nat)
deriving DecidableEq, Repr

/-- V1 `POST /api/attendance/mark` (memory-storage server, `src/server.js` API 3):
reject 400 when `req.file` is absent; otherwise format `now` for Asia/Dubai, build
the document with placeholder `photoPath: 'IN_MEMORY'` and
`photoUrl: req.file.originalname`, and save; a rejected save is answered 500. -/
def markAttendanceV1 (serverNow : Int) (st : ServerState) (req : MarkRequest) :
    JsonResponse × ServerState :=
  match req.file with
  | none =>
      ({ status := 400, success := false, message := "No photo file was uploaded.",
         record := none }, st)
  | some file =>
      let formattedDate := formatDubaiDate serverNow
      let formattedTime := formatDubaiTime serverNow
      let doc : AttendanceDoc :=
        { employerId := req.employerId, loggerName := req.loggerName,
          timestamp := serverNow, date := some formattedDate, time := some formattedTime,
          photoPath := some "IN_MEMORY", photoUrl := some file.originalname }
      match attendanceSaveV1 doc with
      | some rec =>
          ({ status := 200, success := true,
             message := "Attendance recorded successfully!",
             record := some { photoUrl := rec.photoUrl, date := formattedDate,
                              time := formattedTime } },
           { st with db := st.db ++ [rec] })
      | none =>
          ({ status := 500, success := false,
             message := "Server error saving attendance record.", record := none }, st)

/-! ### V2: Cloudinary-backed server -/

/-- Options the V2 handler passes to `cloudinary.uploader.upload_stream`. -/
structure UploadOptions where
  folder : String
  public_id : String
  resource_type : String
  overwrite : Bool
deriving DecidableEq, Repr

/-- What the upload resolves with: the stored object identifier and its public URL. -/
structure UploadResult where
  public_id : String
  secure_url : String
deriving DecidableEq, Repr

/-- Modelled from the spec: the Photo Store behind `uploadStream` (the Cloudinary
service itself is not part of this repository).  Per the Photo Store contract it
durably maps object identifiers to photo bytes, resolves collisions by overwrite,
and fails as a whole on quota/network/credential failure, which `available = false`
captures. -/
structure CloudState where
  available : Bool
  objects : List (String × List Nat)
deriving DecidableEq, Repr

/-- Modelled from the spec: `uploadStream(buffer, options)` — `store(buffer,
suggestedName) -> {url, handle}`.  Persists the buffer under the suggested object
identifier (`options.public_id`, last write wins) and yields a resolvable URL;
rejects when the service fails, which the handler's `catch` turns into a fatal
500 for the whole submission. -/
def uploadStream (cloud : CloudState) (buffer : List Nat) (options : UploadOptions) :
    Except String (UploadResult × CloudState) :=
  if cloud.available then
    let key := options.public_id
    Except.ok
      ({ public_id := key,
         secure_url := "https://res.example.com/" ++ options.folder ++ "/" ++ key },
       { cloud with
         objects := (key, buffer) :: cloud.objects.filter (fun kv => kv.1 != key) })
  else
    Except.error "StoreError"

/-- JS template-literal rendering of a possibly-undefined string. -/
def jsStr : Option String → String
  | some s => s
  | none => "undefined"

/-- Server-side state of the V2 (Cloudinary) server. -/
structure ServerStateV2 where
  db : List AttendanceRecord
  cloud : CloudState
deriving DecidableEq, Repr

/-- V2 `POST /api/attendance/mark` (Cloudinary server, `src/server.js` API 3):
reject 400 when `req.file` is absent; otherwise upload the buffer under
`public_id` = `` `${employerId}_${Date.now()}` `` (an upload rejection is caught
and answered 500 with nothing saved); then build the document.  The source assigns
the Cloudinary URL to the field `_Id`, which the schema does not declare, so under
Mongoose's default strict mode the document carries no `photoUrl` (`photoUrl :=
none` below) and `save` is validated against the schema as usual. -/
def markAttendanceV2 (serverNow : Int) (st : ServerStateV2) (req : MarkRequest) :
    JsonResponse × ServerStateV2 :=
  match req.file with
  | none =>
      ({ status := 400, success := false, message := "No photo file was uploaded.",
         record := none }, st)
  | some file =>
      let formattedDate := formatDubaiDate serverNow
      let formattedTime := formatDubaiTime serverNow
      let fileName := jsStr req.employerId ++ "_" ++ toString serverNow
      match uploadStream st.cloud file.buffer
          { folder := "eppi_attendance", public_id := fileName,
            resource_type := "image", overwrite := true } with
      | Except.error _ =>
          ({ status := 500, success := false,
             message := "Server error saving attendance record or photo.",
             record := none }, st)
      | Except.ok (uploadResult, cloud2) =>
          let photoUrl := uploadResult.secure_url
          let doc : AttendanceDoc :=
            { employerId := req.employerId, loggerName := req.loggerName,
              timestamp := serverNow, date := some formattedDate,
              time := some formattedTime, photoPath := some uploadResult.public_id,
              photoUrl := none }
          match attendanceSaveV2 doc with
          | some rec =>
              ({ status := 200, success := true,
                 message := "Attendance recorded and photo saved to Cloudinary!",
                 record := some { photoUrl := photoUrl, date := formattedDate,
                                  time := formattedTime } },
               { db := st.db ++ [rec], cloud := cloud2 })
          | none =>
              ({ status := 500, success := false,
                 message := "Server error saving attendance record or photo.",
                 record := none },
               { st with cloud := cloud2 })

/-! ### Report endpoint -/

/-- One worksheet row of the Excel report. -/
structure ReportRow where
  date : Option String
  time : Option String
  loggerName : String
  employerId : String
  photoUrl : String
deriving DecidableEq, Repr

/-- `records.map(record => ({date, time, loggerName, employerId, photoUrl}))`. -/
def recordToRow (rec : AttendanceRecord) : ReportRow :=
  { date := rec.date, time := rec.time, loggerName := rec.loggerName,
    employerId := rec.employerId, photoUrl := rec.photoUrl }

/-- Ordering used by `.sort({ timestamp: 1 })`. -/
def tsLE (a b : AttendanceRecord) : Prop := a.timestamp ≤ b.timestamp

instance : DecidableRel tsLE := fun a b => Int.decLe a.timestamp b.timestamp

instance : IsTotal AttendanceRecord tsLE := ⟨fun a b => Int.le_total a.timestamp b.timestamp⟩

instance : IsTrans AttendanceRecord tsLE := ⟨fun _ _ _ => Int.le_trans⟩

/-- `Attendance.find({}).sort({ timestamp: 1 })`: the whole collection sorted by
ascending timestamp. -/
def sortByTimestamp (db : List AttendanceRecord) : List AttendanceRecord :=
  List.insertionSort tsLE db

/-- Response of the report endpoint: HTTP status, and the worksheet rows when a
spreadsheet is produced (`none` on the access-denied text response). -/
structure ReportResult where
  status : Nat
  rows : Option (List ReportRow)
  message : String
deriving DecidableEq, Repr

/-- `GET /api/attendance/report` (`src/server.js` API 4, identical in both
versions): `if (!requesterId || requesterId !== ADMIN_ID)` answers 403 with an
access-denied text and no spreadsheet; otherwise the sorted records become the
worksheet rows of the returned workbook. -/
def attendanceReport (db : List AttendanceRecord) (requesterId : Option String) :
    ReportResult :=
  let falsy := match requesterId with
    | none => true
    | some s => s == ""
  if falsy || requesterId != some "EPPI-001" then
    { status := 403, rows := none,
      message := "Access Denied: Only the Admin User (EPPI-001) can download this report." }
  else
    { status := 200, rows := some ((sortByTimestamp db).map recordToRow), message := "" }

/-! ### Concrete requests used by counterexamples and witnesses -/

/-- A well-formed submission by Jane Doe at server instant 2024-03-01T10:15:00Z. -/
def reqJane : MarkRequest :=
  { file := some { originalname := "cap.jpeg", buffer := [1, 2, 3] },
    timestamp := some "2024-03-01T10:15:00.000Z",
    employerId := some "EPPI-007", loggerName := some "Jane Doe" }

/-- A well-formed submission by employee EPPI-042 at 2024-01-01T00:00:00Z. -/
def reqBob : MarkRequest :=
  { file := some { originalname := "selfie.jpeg", buffer := [9, 9, 9] },
    timestamp := some "2024-01-01T00:00:00.000Z",
    employerId := some "EPPI-042", loggerName := some "Bob" }

/-- A submission with a photo but no `employerId` field. -/
def reqMissingId : MarkRequest :=
  { file := some { originalname := "p.jpeg", buffer := [0] },
    timestamp := some "2024-01-01T00:00:00.000Z",
    employerId := none, loggerName := some "Jane" }

/-! ### Theorems -/

/-- C1: the stored `timestamp` and the stored and returned `date`/`time` strings of
an accepted submission are computed solely from the server instant and the fixed
Asia/Dubai timezone. Changing only the client-supplied `timestamp` field changes
nothing in either server version; any record a V1 submission appends carries
`timestamp = serverNow` and the Dubai renderings of `serverNow`; and any `record`
payload either version returns carries those same renderings. -/
theorem mark_server_time_authoritative :
    ∀ (serverNow : Int) (st : ServerState) (st2 : ServerStateV2) (req : MarkRequest)
      (t : Option String),
      markAttendanceV1 serverNow st { req with timestamp := t } =
        markAttendanceV1 serverNow st req
      ∧ markAttendanceV2 serverNow st2 { req with timestamp := t } =
        markAttendanceV2 serverNow st2 req
      ∧ ((markAttendanceV1 serverNow st req).2.db = st.db ∨
          ∃ rec, (markAttendanceV1 serverNow st req).2.db = st.db ++ [rec] ∧
            rec.timestamp = serverNow ∧
            rec.date = some (formatDubaiDate serverNow) ∧
            rec.time = some (formatDubaiTime serverNow))
      ∧ ((markAttendanceV1 serverNow st req).1.record.all
            (fun v => v.date == formatDubaiDate serverNow
              && v.time == formatDubaiTime serverNow)) = true
      ∧ ((markAttendanceV2 serverNow st2 req).1.record.all
            (fun v => v.date == formatDubaiDate serverNow
              && v.time == formatDubaiTime serverNow)) = true := by
  intro serverNow st st2 req t
  rcases st2 with ⟨db2, avail, objs⟩
  rcases req with ⟨f, ts, e, l⟩
  cases f <;> cases e <;> cases l <;> cases avail <;>
    simp [markAttendanceV1, markAttendanceV2, attendanceSaveV1, attendanceSaveV2,
      uploadStream, jsStr]

/-- C2: a multipart request without a photo file field is answered 400 with
`success: false` and the message from the source, and the server state (both the
attendance collection and any photo storage) is unchanged, in both versions. -/
theorem mark_missing_photo_rejected :
    ∀ (serverNow : Int) (st : ServerState) (st2 : ServerStateV2)
      (ts e l : Option String),
      markAttendanceV1 serverNow st
          { file := none, timestamp := ts, employerId := e, loggerName := l } =
        ({ status := 400, success := false, message := "No photo file was uploaded.",
           record := none }, st)
      ∧ markAttendanceV2 serverNow st2
          { file := none, timestamp := ts, employerId := e, loggerName := l } =
        ({ status := 400, success := false, message := "No photo file was uploaded.",
           record := none }, st2) := by
  intro serverNow st st2 ts e l
  exact ⟨rfl, rfl⟩

/-- C3: when the photo-store upload rejects, the V2 submission fails as a whole
with a 500 response and the server state is returned unchanged — in particular no
`AttendanceRecord` is created and the database write is never attempted. -/
theorem upload_failure_creates_no_record :
    ∀ (serverNow : Int) (st : ServerStateV2) (req : MarkRequest) (f : PhotoFile),
      req.file = some f → st.cloud.available = false →
      markAttendanceV2 serverNow st req =
        ({ status := 500, success := false,
           message := "Server error saving attendance record or photo.",
           record := none }, st) := by
  intro serverNow st req f hf hc
  rcases st with ⟨db, avail, objs⟩
  rcases req with ⟨fl, ts, e, l⟩
  have hf2 : fl = some f := hf
  have hc2 : avail = false := hc
  subst hf2; subst hc2
  rfl

/-- Witness for C3 at a concrete failing store. -/
theorem upload_failure_creates_no_record_witness :
    markAttendanceV2 7 ⟨[], ⟨false, []⟩⟩ reqJane =
      ({ status := 500, success := false,
         message := "Server error saving attendance record or photo.",
         record := none }, ⟨[], ⟨false, []⟩⟩) :=
  upload_failure_creates_no_record 7 ⟨[], ⟨false, []⟩⟩ reqJane
    { originalname := "cap.jpeg", buffer := [1, 2, 3] } rfl rfl

/-- C4 counterexample: a successful V1 submission creates a record whose only photo
reference is `photoUrl = "selfie.jpeg"` (the client-chosen original filename), while
the server's persisted-photo table stays empty — the URL resolves to no stored
image, so it is not a viewable image of the uploaded photo at creation time. -/
theorem record_photo_url_not_resolvable :
    ((markAttendanceV1 1704067200000 ⟨[], []⟩ reqBob).2.db.map
        (fun rec => rec.photoUrl)) = ["selfie.jpeg"]
    ∧ (markAttendanceV1 1704067200000 ⟨[], []⟩ reqBob).1.success = true
    ∧ (markAttendanceV1 1704067200000 ⟨[], []⟩ reqBob).2.photos = []
    ∧ List.lookup "selfie.jpeg"
        (markAttendanceV1 1704067200000 ⟨[], []⟩ reqBob).2.photos = none := by
  decide

/-- C4 as amended: every `AttendanceRecord` the V1 endpoint creates carries exactly
one photo reference, the `photoUrl` string equal to the client-supplied original
filename of the upload; the server persists no photo (its photo table is
unchanged), so the URL is not backed by a stored image. -/
theorem record_photo_url_is_original_name :
    ∀ (serverNow : Int) (st : ServerState) (req : MarkRequest),
      (markAttendanceV1 serverNow st req).2.db = st.db ∨
      ∃ f rec, req.file = some f ∧
        (markAttendanceV1 serverNow st req).2.db = st.db ++ [rec] ∧
        rec.photoUrl = f.originalname ∧
        rec.photoPath = some "IN_MEMORY" ∧
        (markAttendanceV1 serverNow st req).2.photos = st.photos := by
  intro serverNow st req
  rcases req with ⟨f, ts, e, l⟩
  cases f with
  | none => exact Or.inl rfl
  | some file =>
    cases e with
    | none => exact Or.inl rfl
    | some e0 =>
      cases l with
      | none => exact Or.inl rfl
      | some l0 => exact Or.inr ⟨file, _, rfl, rfl, rfl, rfl, rfl⟩

/-- C5: in the Cloudinary version every request that passes the photo-presence
check fails: the document is built with the URL under the undeclared field `_Id`
and no `photoUrl`, the schema's required-`photoUrl` validation rejects the save,
and the handler answers 500 with the attendance collection unchanged. -/
theorem cloudinary_mark_always_fails :
    ∀ (serverNow : Int) (st : ServerStateV2) (req : MarkRequest) (f : PhotoFile),
      req.file = some f →
      (markAttendanceV2 serverNow st req).1.status = 500
      ∧ (markAttendanceV2 serverNow st req).1.success = false
      ∧ (markAttendanceV2 serverNow st req).1.record = none
      ∧ (markAttendanceV2 serverNow st req).2.db = st.db := by
  intro serverNow st req f hf
  rcases st with ⟨db, avail, objs⟩
  rcases req with ⟨fl, ts, e, l⟩
  have hf2 : fl = some f := hf
  subst hf2
  cases avail <;> cases e <;> cases l <;>
    simp [markAttendanceV2, attendanceSaveV2, uploadStream, jsStr]

/-- Witness for C5 at a concrete available store. -/
theorem cloudinary_mark_always_fails_witness :
    (markAttendanceV2 9 ⟨[], ⟨true, []⟩⟩ reqBob).1.status = 500
    ∧ (markAttendanceV2 9 ⟨[], ⟨true, []⟩⟩ reqBob).1.success = false
    ∧ (markAttendanceV2 9 ⟨[], ⟨true, []⟩⟩ reqBob).1.record = none
    ∧ (markAttendanceV2 9 ⟨[], ⟨true, []⟩⟩ reqBob).2.db = [] :=
  cloudinary_mark_always_fails 9 ⟨[], ⟨true, []⟩⟩ reqBob
    { originalname := "selfie.jpeg", buffer := [9, 9, 9] } rfl

/-- C6 counterexample: a submission with a photo but no `employerId` is answered
500 (the required-field rejection surfaces through the handler's `catch`), not the
claimed 400; no record is created. -/
theorem missing_identity_answers_500 :
    (markAttendanceV1 0 ⟨[], []⟩ reqMissingId).1.status = 500
    ∧ (markAttendanceV1 0 ⟨[], []⟩ reqMissingId).1.status ≠ 400
    ∧ (markAttendanceV1 0 ⟨[], []⟩ reqMissingId).2.db = [] := by
  decide

/-- C6 as amended: a request with a photo but a missing `employerId` or missing
`loggerName` creates no record in either version, but the failure is the schema's
required-field rejection of the save, answered as a 500 server error — neither
version has a 400 validation path for these fields. -/
theorem missing_identity_no_record :
    ∀ (serverNow : Int) (st : ServerState) (st2 : ServerStateV2) (req : MarkRequest)
      (f : PhotoFile),
      req.file = some f →
      (req.employerId = none ∨ req.loggerName = none) →
      (markAttendanceV1 serverNow st req).1.status = 500
      ∧ (markAttendanceV1 serverNow st req).1.success = false
      ∧ (markAttendanceV1 serverNow st req).2 = st
      ∧ (markAttendanceV2 serverNow st2 req).1.status = 500
      ∧ (markAttendanceV2 serverNow st2 req).1.success = false
      ∧ (markAttendanceV2 serverNow st2 req).2.db = st2.db := by
  intro serverNow st st2 req f hf hmiss
  rcases st2 with ⟨db2, avail, objs⟩
  rcases req with ⟨fl, ts, e, l⟩
  have hf2 : fl = some f := hf
  subst hf2
  rcases hmiss with he | hl
  · have he2 : e = none := he
    subst he2
    cases avail <;> cases l <;>
      simp [markAttendanceV1, markAttendanceV2, attendanceSaveV1, attendanceSaveV2,
        uploadStream, jsStr]
  · have hl2 : l = none := hl
    subst hl2
    cases avail <;> cases e <;>
      simp [markAttendanceV1, markAttendanceV2, attendanceSaveV1, attendanceSaveV2,
        uploadStream, jsStr]

/-- Witness for C6 (amended) at a concrete request missing `employerId`. -/
theorem missing_identity_no_record_witness :
    (markAttendanceV1 0 ⟨[], []⟩ reqMissingId).1.status = 500
    ∧ (markAttendanceV1 0 ⟨[], []⟩ reqMissingId).1.success = false
    ∧ (markAttendanceV1 0 ⟨[], []⟩ reqMissingId).2 = ⟨[], []⟩
    ∧ (markAttendanceV2 0 ⟨[], ⟨true, []⟩⟩ reqMissingId).1.status = 500
    ∧ (markAttendanceV2 0 ⟨[], ⟨true, []⟩⟩ reqMissingId).1.success = false
    ∧ (markAttendanceV2 0 ⟨[], ⟨true, []⟩⟩ reqMissingId).2.db = [] :=
  missing_identity_no_record 0 ⟨[], []⟩ ⟨[], ⟨true, []⟩⟩ reqMissingId
    { originalname := "p.jpeg", buffer := [0] } rfl (Or.inl rfl)

/-- C7: any report request whose `employerId` query value is missing or differs
from the admin identity `EPPI-001` is answered 403 with no spreadsheet rows; since
these are the only non-admin cases, the spreadsheet is produced only for
`EPPI-001`. -/
theorem report_access_restricted :
    ∀ (db : List AttendanceRecord) (requesterId : Option String),
      requesterId ≠ some "EPPI-001" →
      (attendanceReport db requesterId).status = 403
      ∧ (attendanceReport db requesterId).rows = none := by
  intro db requesterId h
  match requesterId with
  | none => exact ⟨rfl, rfl⟩
  | some s =>
    have hs : (some s != some "EPPI-001") = true := bne_iff_ne.mpr h
    simp [attendanceReport, hs]

/-- Witness for C7 at a concrete non-admin identity over a nonempty collection. -/
theorem report_access_restricted_witness :
    (attendanceReport
        [{ employerId := "EPPI-007", loggerName := "Jane Doe", timestamp := 3,
           date := none, time := none, photoPath := none, photoUrl := "u" }]
        (some "EPPI-999")).status = 403
    ∧ (attendanceReport
        [{ employerId := "EPPI-007", loggerName := "Jane Doe", timestamp := 3,
           date := none, time := none, photoPath := none, photoUrl := "u" }]
        (some "EPPI-999")).rows = none :=
  report_access_restricted _ (some "EPPI-999") (by decide)

/-- C8: the record listing used by the report returns the collection in
non-decreasing timestamp order whatever the insertion order, and it is a
permutation of the collection (no record gained or lost). -/
theorem sorted_listing_nondecreasing :
    ∀ db : List AttendanceRecord,
      (sortByTimestamp db).Pairwise (fun a b => a.timestamp ≤ b.timestamp)
      ∧ (sortByTimestamp db).Perm db := by
  intro db
  exact ⟨List.sorted_insertionSort tsLE db, List.perm_insertionSort tsLE db⟩

/-- C9 counterexample: the Jane Doe submission at server instant
2024-03-01T10:15:00Z succeeds and stores `photoUrl = "cap.jpeg"` (the client-chosen
filename), while the server's persisted-photo table stays empty — the stored
`photoUrl` resolves to no image, so the claimed "resolvable photoUrl" fails. -/
theorem jane_doe_photo_url_not_resolvable :
    ((markAttendanceV1 1709288100000 ⟨[], []⟩ reqJane).2.db.map
        (fun rec => rec.photoUrl)) = ["cap.jpeg"]
    ∧ (markAttendanceV1 1709288100000 ⟨[], []⟩ reqJane).1.success = true
    ∧ (markAttendanceV1 1709288100000 ⟨[], []⟩ reqJane).2.photos = []
    ∧ List.lookup "cap.jpeg"
        (markAttendanceV1 1709288100000 ⟨[], []⟩ reqJane).2.photos = none := by
  decide

/-- C9 as amended: Jane Doe's submission at server instant 2024-03-01T10:15:00Z
(epoch 1709288100000) succeeds and stores date `03/01/2024`, time `02:15:00 PM`
(that instant in UTC+4), `employerId = EPPI-007`, `loggerName = Jane Doe`, and a
`photoUrl` equal to the uploaded file's original name, not a resolvable stored
image. -/
theorem jane_doe_scenario :
    markAttendanceV1 1709288100000 ⟨[], []⟩ reqJane =
      ({ status := 200, success := true,
         message := "Attendance recorded successfully!",
         record := some { photoUrl := "cap.jpeg", date := "03/01/2024",
                          time := "02:15:00 PM" } },
       { db := [{ employerId := "EPPI-007", loggerName := "Jane Doe",
                  timestamp := 1709288100000, date := some "03/01/2024",
                  time := some "02:15:00 PM", photoPath := some "IN_MEMORY",
                  photoUrl := "cap.jpeg" }],
         photos := [] }) := by
  decide

/-- C10: a V2 submission whose upload succeeds persists the photo bytes in the
photo store under exactly the identifier `{employerId}_{epochMillis}` — the
employee's identity, an underscore, and the epoch milliseconds of the server
instant of the capture submission (last write wins on collision). -/
theorem photo_stored_under_employer_and_millis :
    ∀ (serverNow : Int) (st : ServerStateV2) (req : MarkRequest) (f : PhotoFile)
      (e : String),
      req.file = some f → req.employerId = some e → st.cloud.available = true →
      (markAttendanceV2 serverNow st req).2.cloud.objects =
        (e ++ "_" ++ toString serverNow, f.buffer) ::
          st.cloud.objects.filter
            (fun kv => kv.1 != e ++ "_" ++ toString serverNow) := by
  intro serverNow st req f e hf he hc
  rcases st with ⟨db, avail, objs⟩
  rcases req with ⟨fl, ts, e0, l⟩
  have hf2 : fl = some f := hf
  have he2 : e0 = some e := he
  have hc2 : avail = true := hc
  subst hf2; subst he2; subst hc2
  cases l <;> rfl

/-- Witness for C10 at a concrete submission over a store holding one other
object. -/
theorem photo_stored_under_employer_and_millis_witness :
    (markAttendanceV2 1709288100000 ⟨[], ⟨true, [("old", [7])]⟩⟩ reqJane).2.cloud.objects =
      ("EPPI-007" ++ "_" ++ toString (1709288100000 : Int), [1, 2, 3]) ::
        List.filter (fun kv => kv.1 != "EPPI-007" ++ "_" ++ toString (1709288100000 : Int))
          [("old", [7])] :=
  photo_stored_under_employer_and_millis 1709288100000 ⟨[], ⟨true, [("old", [7])]⟩⟩
    reqJane { originalname := "cap.jpeg", buffer := [1, 2, 3] } "EPPI-007" rfl rfl rfl
